import Mathlib

/-!
Verification development for the QR request manager.

The definitions below are a shallow embedding of the core of the program:
the sqlite-backed store operations in src/db.py and the pure helpers and
control flow of src/app.py. Tables become lists of records, each db.py
function becomes a Lean function on a DB value, and each call that the
Python code runs as its own connection/transaction is one atomic step of
the model. Rows keep the column types of the schema: one_time_use is the
INTEGER column of the requests table (0 or 1), not a Bool.
-/

/-- A row of the requests table (src/db.py, CREATE TABLE requests). -/
structure Request where
  id : Nat
  title : String
  description : String
  status : String
  token : String
  one_time_use : Nat
  used_count : Nat
deriving DecidableEq, Repr

/-- A row of the submissions table (src/db.py, CREATE TABLE submissions). -/
structure Submission where
  id : Nat
  request_id : Nat
  name : String
  phone : String
  email : String
deriving DecidableEq, Repr

/-- A rewards-ledger entry, per the data model of the specification
(name, phone, signed points delta, free-text reason). -/
structure RewardEntry where
  name : String
  phone : String
  points : Int
  reason : String
deriving DecidableEq, Repr

/-- The persistent store: the three tables of src/db.py. nextSubId models
the sqlite AUTOINCREMENT counter for submissions (lastrowid). -/
structure DB where
  settings : List (String × String)
  requests : List Request
  submissions : List Submission
  nextSubId : Nat
deriving DecidableEq, Repr

/-- src/db.py get_setting: SELECT value FROM settings WHERE key = ?, with a
default when no row matches. -/
def get_setting (key : String) (dflt : Option String) (db : DB) : Option String :=
  match db.settings.find? (fun kv => kv.1 == key) with
  | some kv => some kv.2
  | none => dflt

/-- src/db.py set_setting: INSERT ... ON CONFLICT(key) DO UPDATE (upsert). -/
def set_setting (key value : String) (db : DB) : DB :=
  if db.settings.any (fun kv => kv.1 == key) then
    { db with settings := db.settings.map (fun kv => if kv.1 == key then (key, value) else kv) }
  else
    { db with settings := db.settings ++ [(key, value)] }

/-- src/db.py get_request_by_token: SELECT * FROM requests WHERE token = ?
(fetchone returns the first matching row). -/
def get_request_by_token (token : String) (db : DB) : Option Request :=
  db.requests.find? (fun r => r.token == token)

/-- src/db.py update_request_status: UPDATE requests SET status = ? WHERE id = ?. -/
def update_request_status (request_id : Nat) (status : String) (db : DB) : DB :=
  { db with requests := db.requests.map (fun r =>
      if r.id == request_id then { r with status := status } else r) }

/-- src/db.py delete_request: DELETE FROM submissions WHERE request_id = ?,
then DELETE FROM requests WHERE id = ?. Note that it touches no settings row. -/
def delete_request (request_id : Nat) (db : DB) : DB :=
  { db with
    submissions := db.submissions.filter (fun s => s.request_id != request_id),
    requests := db.requests.filter (fun r => r.id != request_id) }

/-- src/db.py add_submission: a SELECT for an existing row with the same
request_id and the exact same phone string, raising ValueError when one
exists, else an INSERT returning the new row. -/
def add_submission (request_id : Nat) (name phone email : String) (db : DB) :
    Except String (Submission × DB) :=
  if db.submissions.any (fun s => s.request_id == request_id && s.phone == phone) then
    .error "A submission with this phone number already exists for this request"
  else
    let sub : Submission :=
      { id := db.nextSubId, request_id := request_id, name := name, phone := phone, email := email }
    .ok (sub, { db with submissions := db.submissions ++ [sub], nextSubId := db.nextSubId + 1 })

/-- src/db.py list_submissions: SELECT * FROM submissions WHERE request_id = ?. -/
def list_submissions (request_id : Nat) (db : DB) : List Submission :=
  db.submissions.filter (fun s => s.request_id == request_id)

/-- src/db.py is_token_used: fetch the request row by token; true exactly
when a row exists with one_time_use = 1 and used_count > 0. -/
def is_token_used (token : String) (db : DB) : Bool :=
  match get_request_by_token token db with
  | some r => r.one_time_use == 1 && decide (0 < r.used_count)
  | none => false

/-- src/db.py mark_token_used: UPDATE requests SET used_count = used_count + 1
WHERE token = ?. -/
def mark_token_used (token : String) (db : DB) : DB :=
  { db with requests := db.requests.map (fun r =>
      if r.token == token then { r with used_count := r.used_count + 1 } else r) }

/-- src/db.py set_one_time_use: UPDATE requests SET one_time_use = ? WHERE id = ?,
writing 1 or 0. -/
def set_one_time_use (request_id : Nat) (one_time : Bool) (db : DB) : DB :=
  { db with requests := db.requests.map (fun r =>
      if r.id == request_id then { r with one_time_use := if one_time then 1 else 0 } else r) }

/-- Modelled from the spec: src/app.py imports add_reward_entry from db, but
src/db.py does not define it. Spec 4.4 addEntry: appends a RewardEntry to the
append-only ledger. -/
def add_reward_entry (name phone : String) (points : Int) (reason : String)
    (ledger : List RewardEntry) : List RewardEntry :=
  ledger ++ [{ name := name, phone := phone, points := points, reason := reason }]

/-- Modelled from the spec: src/app.py imports get_rewards_adjustment_sum from
db, but src/db.py does not define it. Spec 4.4 adjustmentSum: the sum of the
points of all RewardEntry rows matching the exact (name, phone) pair. -/
def get_rewards_adjustment_sum (name phone : String) (ledger : List RewardEntry) : Int :=
  ((ledger.filter (fun e => e.name == name && e.phone == phone)).map (fun e => e.points)).sum

/-- The Python regular-expression whitespace class for str patterns, as used
by the src/app.py regexes: backslash-s matches the Unicode whitespace
characters, exactly those with a true str.isspace(): code points 09 to 0D,
1C to 20, 85, A0, 1680, 2000 to 200A, 2028, 2029, 202F, 205F and 3000.
Python str.strip() strips the same set. -/
def pyWhitespaceChar (c : Char) : Bool :=
  (decide (0x09 ≤ c.toNat) && decide (c.toNat ≤ 0x0d))
  || (decide (0x1c ≤ c.toNat) && decide (c.toNat ≤ 0x20))
  || c.toNat == 0x85 || c.toNat == 0xa0 || c.toNat == 0x1680
  || (decide (0x2000 ≤ c.toNat) && decide (c.toNat ≤ 0x200a))
  || c.toNat == 0x2028 || c.toNat == 0x2029 || c.toNat == 0x202f
  || c.toNat == 0x205f || c.toNat == 0x3000

/-- The character class of the phone pattern in src/app.py _is_valid_phone:
digits, plus, minus, parentheses and regex whitespace. -/
def phoneAllowedChar (c : Char) : Bool :=
  c.isDigit || c == '+' || c == '-' || c == '(' || c == ')' || pyWhitespaceChar c

/-- Truth of the Python match of the anchored class pattern of length 7 to 20
used by _is_valid_phone. In Python the dollar anchor also matches just before
a newline that ends the string, so a string whose first length-minus-one
characters are in the class and whose last character is a newline matches too. -/
def phonePatternMatches (s : List Char) : Bool :=
  (decide (7 ≤ s.length) && decide (s.length ≤ 20) && s.all phoneAllowedChar)
  || (s.getLast? == some '\n' && decide (7 ≤ s.length - 1) && decide (s.length - 1 ≤ 20)
        && s.dropLast.all phoneAllowedChar)

/-- src/app.py _is_valid_phone: the class pattern must match, and the count of
digit characters (the string with every non-digit removed) must be 7 to 20. -/
def _is_valid_phone (phone : String) : Bool :=
  let digits_only := phone.data.filter Char.isDigit
  phonePatternMatches phone.data
    && decide (7 ≤ digits_only.length) && decide (digits_only.length ≤ 20)

/-- src/app.py _is_valid_email: the anchored pattern local at-sign domain dot
tld, each part one or more characters that are neither an at-sign nor
whitespace. Matches exactly when the string, with one trailing newline
discarded if present (the Python dollar anchor), splits at a single at-sign
into a nonempty local part and a domain that has an inner dot, with no
whitespace anywhere in the consumed characters. -/
def emailCoreMatch (s : List Char) : Bool :=
  ((s.filter (fun c => c == '@')).length == 1)
    && s.all (fun c => !pyWhitespaceChar c)
    && (match s.splitOn '@' with
        | [a, t] => decide (1 ≤ a.length) && ((t.drop 1).dropLast.any (fun c => c == '.'))
        | _ => false)

/-- src/app.py _is_valid_email, including the trailing-newline behaviour of
the Python dollar anchor. -/
def _is_valid_email (email : String) : Bool :=
  emailCoreMatch email.data
    || (email.data.getLast? == some '\n' && emailCoreMatch email.data.dropLast)

/-- src/app.py _build_form_url: choose the separator by whether the base URL
already contains a question mark, then concatenate. -/
def _build_form_url (base_url token : String) : String :=
  let sep := if base_url.data.contains '?' then "&" else "?"
  base_url ++ sep ++ "view=form&token=" ++ token

/-- Python str.strip() as src/app.py applies it to the form fields: drop
whitespace characters from both ends. -/
def pyStrip (s : String) : String :=
  ⟨((s.data.dropWhile pyWhitespaceChar).reverse.dropWhile pyWhitespaceChar).reverse⟩

/-- The outcome of one public-form submission attempt in src/app.py _public_form. -/
inductive SubmitResult where
  | unknownToken
  | closed
  | exhausted
  | validationError
  | duplicate
  | accepted
deriving DecidableEq, Repr

/-- The validation block of _public_form: true when the errors list it builds
is nonempty (name missing or out of the 2 to 100 range after stripping, phone
missing or invalid, or a nonempty email invalid or over 100 characters). -/
def hasValidationErrors (name phone email : String) : Bool :=
  (pyStrip name == "") || decide ((pyStrip name).length < 2) || decide (100 < (pyStrip name).length)
  || (pyStrip phone == "") || !_is_valid_phone (pyStrip phone)
  || (pyStrip email != ""
        && (!_is_valid_email (pyStrip email) || decide (100 < (pyStrip email).length)))

/-- The token gate of _public_form: the get_request_by_token lookup, the
status check and the is_token_used check, run as separate reads of the store.
When the gate passes it returns the request id captured from the lookup. -/
def gateEval (token : String) (db : DB) : Except SubmitResult Nat :=
  match get_request_by_token token db with
  | none => .error .unknownToken
  | some req =>
    if req.status != "open" then .error .closed
    else if is_token_used token db then .error .exhausted
    else .ok req.id

/-- The submit block of _public_form after the gate passed: validation, then
add_submission with the stripped fields, then mark_token_used. -/
def actEval (rid : Nat) (token name phone email : String) (db : DB) : SubmitResult × DB :=
  if hasValidationErrors name phone email then (.validationError, db)
  else
    match add_submission rid (pyStrip name) (pyStrip phone) (pyStrip email) db with
    | .error _ => (.duplicate, db)
    | .ok (_, db1) => (.accepted, mark_token_used token db1)

/-- One whole sequential run of _public_form with a submitted form: the gate,
then on success the submit block. -/
def submitViaToken (token name phone email : String) (db : DB) : SubmitResult × DB :=
  match gateEval token db with
  | .error o => (o, db)
  | .ok rid => actEval rid token name phone email db

/-- The gate as a predicate: true exactly when _public_form reaches the live
form for this token in this store state. -/
def tokenUsable (token : String) (db : DB) : Bool :=
  match gateEval token db with
  | .error _ => false
  | .ok _ => true

/-- One public submitter in the race model: the form fields it submits. -/
structure Attempt where
  name : String
  phone : String
  email : String
deriving DecidableEq, Repr

/-- A scheduler label: which of the two concurrent attempts runs which of its
two store transactions next. The gate (reads) and the submit block (writes)
of one attempt run on separate sqlite connections in the code, so they are
separate atomic steps of the model. -/
inductive RaceStep where
  | gateA | actA | gateB | actB
deriving DecidableEq, Repr

deriving instance DecidableEq for Except

/-- The shared store plus each attempt's local state: the gate result it has
computed (none before its gate ran) and its final outcome (none while it is
still running). -/
structure RaceState where
  db : DB
  aGate : Option (Except SubmitResult Nat)
  aOut : Option SubmitResult
  bGate : Option (Except SubmitResult Nat)
  bOut : Option SubmitResult
deriving DecidableEq, Repr

/-- One scheduled step of the two-attempt race. A gate step records the gate
result in the attempt's local state (finishing the attempt when the gate
fails); an act step runs the submit block against the current shared store
if that attempt's gate has passed and it has not finished yet. -/
def raceStep (token : String) (attA attB : Attempt) : RaceStep → RaceState → RaceState
  | .gateA, st =>
    let g := gateEval token st.db
    { st with aGate := some g,
              aOut := match g with | .error o => some o | .ok _ => none }
  | .actA, st =>
    match st.aGate, st.aOut with
    | some (.ok rid), none =>
      let r := actEval rid token attA.name attA.phone attA.email st.db
      { st with db := r.2, aOut := some r.1 }
    | _, _ => st
  | .gateB, st =>
    let g := gateEval token st.db
    { st with bGate := some g,
              bOut := match g with | .error o => some o | .ok _ => none }
  | .actB, st =>
    match st.bGate, st.bOut with
    | some (.ok rid), none =>
      let r := actEval rid token attB.name attB.phone attB.email st.db
      { st with db := r.2, bOut := some r.1 }
    | _, _ => st

/-- Run a schedule of race steps from an initial shared store. -/
def runRace (token : String) (attA attB : Attempt) (sched : List RaceStep) (db : DB) : RaceState :=
  sched.foldl (fun st l => raceStep token attA attB l st)
    { db := db, aGate := none, aOut := none, bGate := none, bOut := none }

def isAStep : RaceStep → Bool
  | .gateA => true
  | .actA => true
  | .gateB => false
  | .actB => false

/-- A schedule is a true interleaving of the two attempts when each attempt's
steps appear in its program order: gate first, then act. -/
def validInterleaving (sched : List RaceStep) : Bool :=
  (sched.filter isAStep == [.gateA, .actA])
    && (sched.filter (fun l => !isAStep l) == [.gateB, .actB])

/-- A value of a Python dict row in the review page: a string or an integer. -/
inductive RVal where
  | str (s : String)
  | int (i : Int)
deriving DecidableEq, Repr

/-- A review aggregation row: a Python dict in insertion order. -/
abbrev AggRow := List (String × RVal)

/-- Read a key of a row dict; none models a Python KeyError. -/
def rowGet (row : AggRow) (key : String) : Option RVal :=
  match row.find? (fun kv => kv.1 == key) with
  | some kv => some kv.2
  | none => none

/-- Write a key of a row dict: update in place when present, append when new
(Python dicts keep insertion order). -/
def rowSet (row : AggRow) (key : String) (v : RVal) : AggRow :=
  if row.any (fun kv => kv.1 == key) then
    row.map (fun kv => if kv.1 == key then (key, v) else kv)
  else row ++ [(key, v)]

/-- Read an integer-valued key; the review code only applies this to keys it
set to integers. -/
def rowGetInt (row : AggRow) (key : String) : Int :=
  match rowGet row key with
  | some (.int i) => i
  | _ => 0

/-- Read a string-valued key. -/
def rowGetStr (row : AggRow) (key : String) : String :=
  match rowGet row key with
  | some (.str s) => s
  | _ => ""

/-- The fresh aggregation row that _review_page creates for a new
(name, phone) key: exactly the keys Name, Phone, Earned Points, Adjustments,
Balance and Submissions. -/
def freshAggRow (name phone : String) : AggRow :=
  [("Name", .str name), ("Phone", .str phone), ("Earned Points", .int 0),
   ("Adjustments", .int 0), ("Balance", .int 0), ("Submissions", .int 0)]

/-- One iteration of the first aggregation pass of _review_page: insert a
fresh row when the (name, phone) key is new, then accumulate Earned Points
and Submissions on the row at that key. -/
def aggStep (agg : List ((String × String) × AggRow)) (r : String × String × Int) :
    List ((String × String) × AggRow) :=
  let key := (r.1, r.2.1)
  let pts := r.2.2
  let agg1 := if agg.any (fun kv => kv.1 == key) then agg
              else agg ++ [(key, freshAggRow key.1 key.2)]
  agg1.map (fun kv =>
    if kv.1 == key then
      (key,
        let row1 := rowSet kv.2 "Earned Points" (.int (rowGetInt kv.2 "Earned Points" + max 0 pts))
        rowSet row1 "Submissions" (.int (rowGetInt row1 "Submissions" + 1)))
    else kv)

/-- The first aggregation pass of _review_page: fold the filtered
(name, phone, points) triples into the insertion-ordered dict. -/
def aggFold (rows : List (String × String × Int)) : List ((String × String) × AggRow) :=
  rows.foldl aggStep []

/-- The adjustment pass of _review_page: on every aggregated row set
Adjustments to the ledger sum and Balance to the floored total, then take the
row list (the dict values). -/
def aggRowsWithBalances (rows : List (String × String × Int)) (ledger : List RewardEntry) :
    List AggRow :=
  (aggFold rows).map (fun kv =>
    let adj := get_rewards_adjustment_sum (rowGetStr kv.2 "Name") (rowGetStr kv.2 "Phone") ledger
    let row1 := rowSet kv.2 "Adjustments" (.int adj)
    rowSet row1 "Balance" (.int (max 0 (rowGetInt row1 "Earned Points" + adj))))

/-- The sort key of the review table: the lambda reads the Total Points key
and the Name key of a row; none models the Python KeyError on a missing key. -/
def sortKeyLookup (row : AggRow) : Option (Int × String) :=
  match rowGet row "Total Points", rowGet row "Name" with
  | some (.int t), some (.str n) => some (-t, n)
  | _, _ => none

def sortKeyLe (k1 k2 : Int × String) : Bool :=
  decide (k1.1 < k2.1) || (k1.1 == k2.1 && decide (k1.2 ≤ k2.2))

def insertByKey (r : AggRow) : List AggRow → List AggRow
  | [] => [r]
  | x :: xs =>
    if sortKeyLe ((sortKeyLookup r).getD (0, "")) ((sortKeyLookup x).getD (0, "")) then
      r :: x :: xs
    else x :: insertByKey r xs

/-- The in-place sort of the review rows by the key above. The key function
is evaluated on the rows; when any lookup fails the whole sort fails (none),
as the Python KeyError aborts it before any sorted table is produced. -/
def sortAggRows (rows : List AggRow) : Option (List AggRow) :=
  if rows.all (fun r => (sortKeyLookup r).isSome) then
    some (rows.foldr insertByKey [])
  else none

/-- The balance formula of _review_page (the Balance column and the pay
branch): max 0 of earned points plus the exact-match adjustment sum. -/
def computeBalance (earnedPoints : Int) (name phone : String) (ledger : List RewardEntry) : Int :=
  max 0 (earnedPoints + get_rewards_adjustment_sum name phone ledger)

/-- The Pay (Zero Out) action of _review_page: read the current adjustment
sum, compute the balance from the earned points of the matching aggregation
row, do nothing when the balance is zero, else append the paid entry with the
negated balance. -/
def payZeroOut (earned : Int) (name phone : String) (ledger : List RewardEntry) :
    List RewardEntry :=
  if computeBalance earned name phone ledger = 0 then ledger
  else add_reward_entry name phone (-(computeBalance earned name phone ledger)) "paid" ledger

/-- The phone-acceptance rule exactly as the specification words it: the
string consists solely of digits, plus, minus, parentheses and spaces, its
total length is 7 to 20 characters, and its digit count is 7 to 20. -/
def claimPhoneValid (phone : String) : Prop :=
  (∀ c ∈ phone.data, c.isDigit = true ∨ c = '+' ∨ c = '-' ∨ c = '(' ∨ c = ')' ∨ c = ' ') ∧
  7 ≤ phone.data.length ∧ phone.data.length ≤ 20 ∧
  7 ≤ (phone.data.filter Char.isDigit).length ∧ (phone.data.filter Char.isDigit).length ≤ 20

/-- The corrected phone-acceptance rule: the consumed part of the string (the
whole string, or all but one trailing newline, which the Python dollar anchor
permits) is 7 to 20 characters drawn from digits, plus, minus, parentheses
and Python regex whitespace (the Unicode whitespace characters, space and tab
included), and the digit count of the string is 7 to 20. -/
def amendedPhoneValid (phone : String) : Prop :=
  (∃ core : List Char,
    (phone.data = core ∨ phone.data = core ++ ['\n']) ∧
    7 ≤ core.length ∧ core.length ≤ 20 ∧
    ∀ c ∈ core, phoneAllowedChar c = true) ∧
  7 ≤ (phone.data.filter Char.isDigit).length ∧
  (phone.data.filter Char.isDigit).length ≤ 20

instance (phone : String) : Decidable (claimPhoneValid phone) := by
  unfold claimPhoneValid
  infer_instance

theorem eq_dropLast_concat_of_getLast? {α : Type} {l : List α} {a : α}
    (h : l.getLast? = some a) : l = l.dropLast ++ [a] := by
  have hne : l ≠ [] := by
    intro he
    subst he
    simp at h
  have h2 := List.getLast?_eq_getLast l hne
  rw [h2, Option.some_inj] at h
  rw [← h] at *
  exact (List.dropLast_concat_getLast hne).symm

/-- C8: the form URL is exactly the base URL, then an ampersand when the base
URL already contains a question mark and a question mark otherwise, then the
literal query view=form&token= followed by the token. -/
theorem build_form_url_contract (base_url token : String) :
    (base_url.data.contains '?' = true →
      _build_form_url base_url token = base_url ++ "&" ++ "view=form&token=" ++ token) ∧
    (base_url.data.contains '?' = false →
      _build_form_url base_url token = base_url ++ "?" ++ "view=form&token=" ++ token) := by
  constructor <;> intro h
  · have h2 : '?' ∈ base_url.data := by simpa using h
    simp [_build_form_url, h2]
  · have h2 : ¬ ('?' ∈ base_url.data) := by simpa using h
    simp [_build_form_url, h2]

theorem build_form_url_contract_witness :
    _build_form_url "http://host/app?x=1" "tok123"
        = "http://host/app?x=1" ++ "&" ++ "view=form&token=" ++ "tok123" ∧
    _build_form_url "http://host/app" "tok123"
        = "http://host/app" ++ "?" ++ "view=form&token=" ++ "tok123" :=
  ⟨(build_form_url_contract "http://host/app?x=1" "tok123").1 (by decide),
   (build_form_url_contract "http://host/app" "tok123").2 (by decide)⟩

/-- C4: the balance is the floored sum of earned points and the exact-match
adjustment sum, hence never negative, and it is zero whenever the adjustments
drag the total below zero. -/
theorem compute_balance_floor (earned : Int) (name phone : String) (ledger : List RewardEntry) :
    computeBalance earned name phone ledger
        = max 0 (earned + get_rewards_adjustment_sum name phone ledger) ∧
    0 ≤ computeBalance earned name phone ledger ∧
    (earned + get_rewards_adjustment_sum name phone ledger < 0 →
      computeBalance earned name phone ledger = 0) := by
  refine ⟨rfl, le_max_left _ _, fun h => ?_⟩
  unfold computeBalance
  omega

theorem compute_balance_floor_witness :
    computeBalance 10 "Jane Doe" "5551234"
      [{ name := "Jane Doe", phone := "5551234", points := -100, reason := "redeemed" }] = 0 :=
  (compute_balance_floor 10 "Jane Doe" "5551234"
    [{ name := "Jane Doe", phone := "5551234", points := -100, reason := "redeemed" }]).2.2
    (by decide)

theorem adjustment_sum_append (name phone : String) (ledger : List RewardEntry)
    (e : RewardEntry) :
    get_rewards_adjustment_sum name phone (ledger ++ [e])
      = get_rewards_adjustment_sum name phone ledger
        + (if e.name == name && e.phone == phone then e.points else 0) := by
  unfold get_rewards_adjustment_sum
  rw [List.filter_append, List.map_append, List.sum_append]
  cases h : (e.name == name && e.phone == phone) <;> simp [h]

/-- C6: paying in full drives the balance to exactly zero; a second immediate
call appends no new entry; when the balance is nonzero the first call appends
exactly one entry with the negated balance and reason paid, and when it is
already zero the call is a no-op. -/
theorem pay_zero_out_idempotent (earned : Int) (name phone : String)
    (ledger : List RewardEntry) :
    computeBalance earned name phone (payZeroOut earned name phone ledger) = 0 ∧
    payZeroOut earned name phone (payZeroOut earned name phone ledger)
      = payZeroOut earned name phone ledger ∧
    (computeBalance earned name phone ledger ≠ 0 →
      payZeroOut earned name phone ledger
        = ledger ++ [{ name := name, phone := phone,
                        points := -(computeBalance earned name phone ledger),
                        reason := "paid" }]) ∧
    (computeBalance earned name phone ledger = 0 →
      payZeroOut earned name phone ledger = ledger) := by
  have hbal : computeBalance earned name phone (payZeroOut earned name phone ledger) = 0 := by
    by_cases h : computeBalance earned name phone ledger = 0
    · unfold payZeroOut
      rw [if_pos h]
      exact h
    · unfold payZeroOut
      rw [if_neg h]
      unfold computeBalance add_reward_entry at *
      rw [adjustment_sum_append]
      simp only [beq_self_eq_true, Bool.and_self, if_pos]
      omega
  refine ⟨hbal, ?_, fun h => ?_, fun h => ?_⟩
  · set l1 := payZeroOut earned name phone ledger with hl1
    unfold payZeroOut
    rw [if_pos hbal]
  · unfold payZeroOut add_reward_entry
    rw [if_neg h]
  · unfold payZeroOut
    rw [if_pos h]

theorem pay_zero_out_idempotent_witness :
    payZeroOut 10 "Jane Doe" "5551234" []
        = [{ name := "Jane Doe", phone := "5551234", points := -10, reason := "paid" }] ∧
    payZeroOut 10 "Jane Doe" "5551234" (payZeroOut 10 "Jane Doe" "5551234" [])
        = payZeroOut 10 "Jane Doe" "5551234" [] ∧
    payZeroOut 0 "Jane Doe" "5551234" [] = [] :=
  ⟨by
    have h := (pay_zero_out_idempotent 10 "Jane Doe" "5551234" []).2.2.1 (by decide)
    simpa using h,
   (pay_zero_out_idempotent 10 "Jane Doe" "5551234" []).2.1,
   (pay_zero_out_idempotent 0 "Jane Doe" "5551234" []).2.2.2 (by decide)⟩

/-- C7 counterexample: a seven-digit string followed by a tab character is
accepted by _is_valid_phone, because the Python whitespace class of the
pattern admits the tab, but the claimed rule rejects it: a tab is none of
digits, plus, minus, parentheses or spaces, so the string does not consist
solely of the allowed characters. -/
theorem phone_validation_claim_cex :
    _is_valid_phone "1234567\t" = true ∧ ¬ claimPhoneValid "1234567\t" := by
  constructor
  · decide
  · decide

/-- C7 amended: acceptance is as claimed except that the separator characters
are the Python regex whitespace characters rather than only the space, and
the dollar anchor of the Python pattern also accepts one trailing newline
after the 7 to 20 consumed characters. -/
theorem phone_validation_amended (phone : String) :
    _is_valid_phone phone = true ↔ amendedPhoneValid phone := by
  unfold _is_valid_phone phonePatternMatches amendedPhoneValid
  simp only [Bool.and_eq_true, Bool.or_eq_true, decide_eq_true_eq, List.all_eq_true,
    beq_iff_eq]
  constructor
  · rintro ⟨⟨⟨⟨h7, h20⟩, hall⟩ | ⟨⟨⟨hlast, h7⟩, h20⟩, hall⟩, hd7⟩, hd20⟩
    · exact ⟨⟨phone.data, Or.inl rfl, h7, h20, hall⟩, hd7, hd20⟩
    · have hlen := phone.data.length_dropLast
      refine ⟨⟨phone.data.dropLast, Or.inr (eq_dropLast_concat_of_getLast? hlast), ?_, ?_, hall⟩,
        hd7, hd20⟩
      · omega
      · omega
  · rintro ⟨⟨core, hcase | hcase, h7, h20, hall⟩, hd7, hd20⟩
    · refine ⟨⟨Or.inl ⟨⟨?_, ?_⟩, ?_⟩, hd7⟩, hd20⟩
      · rw [hcase]; exact h7
      · rw [hcase]; exact h20
      · rw [hcase]; exact hall
    · refine ⟨⟨Or.inr ⟨⟨⟨?_, ?_⟩, ?_⟩, ?_⟩, hd7⟩, hd20⟩
      · rw [hcase]; exact List.getLast?_concat core
      · rw [hcase]; simp; omega
      · rw [hcase]; simp; omega
      · rw [hcase, List.dropLast_concat]; exact hall

theorem phone_validation_amended_witness : amendedPhoneValid "+1 555-000-1111" :=
  (phone_validation_amended "+1 555-000-1111").mp (by decide)

/-- A store with one open request and one submission with phone 555-1234,
used to exercise the duplicate check of add_submission. -/
def dupDb : DB :=
  { settings := [],
    requests := [{ id := 1, title := "Event A", description := "", status := "open",
                   token := "tok1", one_time_use := 0, used_count := 0 }],
    submissions := [{ id := 1, request_id := 1, name := "Jane Doe",
                      phone := "555-1234", email := "" }],
    nextSubId := 2 }

/-- C2 counterexample: a second submission whose phone has the same digits as
an existing one but different formatting (5551234 after 555-1234) is accepted
by add_submission, not rejected: the duplicate check compares the phone
strings exactly, without stripping formatting characters. -/
theorem add_submission_normalization_cex :
    add_submission 1 "John Doe" "5551234" "" dupDb
      = .ok ({ id := 2, request_id := 1, name := "John Doe", phone := "5551234", email := "" },
             { settings := [],
               requests := dupDb.requests,
               submissions := dupDb.submissions
                 ++ [{ id := 2, request_id := 1, name := "John Doe",
                       phone := "5551234", email := "" }],
               nextSubId := 3 }) := by decide

/-- C2 amended: for the same request, a second submission is rejected exactly
when its phone string is identical to a stored one (exact string equality, no
normalization); otherwise it is inserted, and the stored phone is the
original string as passed. -/
theorem add_submission_exact_duplicate (db : DB) (rid : Nat) (name phone email : String) :
    ((∃ s ∈ db.submissions, s.request_id = rid ∧ s.phone = phone) →
      add_submission rid name phone email db
        = .error "A submission with this phone number already exists for this request") ∧
    ((∀ s ∈ db.submissions, ¬(s.request_id = rid ∧ s.phone = phone)) →
      add_submission rid name phone email db
        = .ok ({ id := db.nextSubId, request_id := rid, name := name,
                 phone := phone, email := email },
               { db with
                 submissions := db.submissions
                   ++ [{ id := db.nextSubId, request_id := rid, name := name,
                         phone := phone, email := email }],
                 nextSubId := db.nextSubId + 1 })) := by
  constructor
  · rintro ⟨s, hs, hrid, hph⟩
    unfold add_submission
    rw [if_pos]
    exact List.any_eq_true.mpr ⟨s, hs, by simp [hrid, hph]⟩
  · intro hnone
    unfold add_submission
    rw [if_neg]
    intro hany
    obtain ⟨s, hs, hp⟩ := List.any_eq_true.mp hany
    simp only [Bool.and_eq_true, beq_iff_eq] at hp
    exact hnone s hs ⟨hp.1, hp.2⟩

theorem add_submission_exact_duplicate_witness :
    add_submission 1 "John Doe" "555-1234" "" dupDb
        = .error "A submission with this phone number already exists for this request" ∧
    add_submission 1 "John Doe" "555-1235" "" dupDb
        = .ok ({ id := 2, request_id := 1, name := "John Doe",
                 phone := "555-1235", email := "" },
               { dupDb with
                 submissions := dupDb.submissions
                   ++ [{ id := 2, request_id := 1, name := "John Doe",
                         phone := "555-1235", email := "" }],
                 nextSubId := 3 }) :=
  ⟨(add_submission_exact_duplicate dupDb 1 "John Doe" "555-1234" "").1
      ⟨{ id := 1, request_id := 1, name := "Jane Doe", phone := "555-1234", email := "" },
        by decide⟩,
   (add_submission_exact_duplicate dupDb 1 "John Doe" "555-1235" "").2 (by decide)⟩

/-- A store with one request, its submission and its two associated settings
keys, used to exercise the delete cascade. -/
def delDb : DB :=
  { settings := [("points_1", "10"), ("qr_custom_1", "hello"), ("base_url", "http://host")],
    requests := [{ id := 1, title := "Event A", description := "", status := "open",
                   token := "tok1", one_time_use := 0, used_count := 0 }],
    submissions := [{ id := 1, request_id := 1, name := "Jane Doe",
                      phone := "5551234", email := "" }],
    nextSubId := 2 }

/-- C5 counterexample: after delete_request the submissions and the request
row are gone, but the associated settings keys points_1 and qr_custom_1 are
still present: delete_request deletes from submissions and requests only and
never touches the settings table. -/
theorem delete_request_settings_cex :
    get_setting "points_1" none (delete_request 1 delDb) = some "10" ∧
    get_setting "qr_custom_1" none (delete_request 1 delDb) = some "hello" ∧
    list_submissions 1 (delete_request 1 delDb) = [] ∧
    get_request_by_token "tok1" (delete_request 1 delDb) = none := by decide

/-- C5 amended: delete_request removes every submission of the request and
the request row itself, so the token no longer resolves when no other request
carries it, but the settings store is left entirely unchanged, associated
keys included. -/
theorem delete_request_cascade (db : DB) (rid : Nat) (tok : String) :
    list_submissions rid (delete_request rid db) = [] ∧
    (∀ r ∈ (delete_request rid db).requests, r.id ≠ rid) ∧
    (delete_request rid db).settings = db.settings ∧
    ((∀ r ∈ db.requests, r.token = tok → r.id = rid) →
      get_request_by_token tok (delete_request rid db) = none) := by
  refine ⟨?_, ?_, rfl, ?_⟩
  · unfold list_submissions delete_request
    rw [List.filter_eq_nil_iff]
    intro s hs
    have hmem := List.mem_filter.mp hs
    simp only [bne_iff_ne, ne_eq] at hmem
    simp [hmem.2]
  · intro r hr
    unfold delete_request at hr
    have hmem := List.mem_filter.mp hr
    simpa using hmem.2
  · intro honly
    unfold get_request_by_token delete_request
    rw [List.find?_eq_none]
    intro r hr
    have hmem := List.mem_filter.mp hr
    simp only [bne_iff_ne, ne_eq] at hmem
    simp only [beq_iff_eq]
    intro htok
    exact hmem.2 (honly r hmem.1 htok)

theorem delete_request_cascade_witness :
    get_request_by_token "tok1" (delete_request 1 delDb) = none :=
  (delete_request_cascade delDb 1 "tok1").2.2.2 (by decide)

/-- A store with a single known, fresh one-time token. -/
def unkDb : DB :=
  { settings := [],
    requests := [{ id := 1, title := "Event A", description := "", status := "open",
                   token := "known", one_time_use := 1, used_count := 0 }],
    submissions := [], nextSubId := 1 }

/-- C9: for a token that belongs to no request, is_token_used returns false,
the same answer as for a fresh usable token, so the gate function itself does
not distinguish the two; the unknown token is rejected earlier, by the
get_request_by_token lookup at the top of _public_form. -/
theorem unknown_token_gate :
    (∀ token db (name phone email : String), get_request_by_token token db = none →
      is_token_used token db = false ∧
      submitViaToken token name phone email db = (.unknownToken, db)) ∧
    (∀ token db req, get_request_by_token token db = some req → req.used_count = 0 →
      is_token_used token db = false) := by
  constructor
  · intro token db name phone email h
    constructor
    · unfold is_token_used
      rw [h]
    · unfold submitViaToken gateEval
      rw [h]
  · intro token db req h h0
    unfold is_token_used
    rw [h]
    simp [h0]

theorem unknown_token_gate_witness :
    (is_token_used "missing" unkDb = false ∧
      submitViaToken "missing" "Jane Doe" "+1 555-000-1111" "" unkDb = (.unknownToken, unkDb)) ∧
    is_token_used "known" unkDb = false :=
  ⟨unknown_token_gate.1 "missing" unkDb "Jane Doe" "+1 555-000-1111" "" (by decide),
   unknown_token_gate.2 "known" unkDb
     { id := 1, title := "Event A", description := "", status := "open",
       token := "known", one_time_use := 1, used_count := 0 } (by decide) rfl⟩

theorem add_submission_ok_state {rid : Nat} {n p e : String} {db : DB} {sub : Submission}
    {db2 : DB} (h : add_submission rid n p e db = .ok (sub, db2)) :
    db2.requests = db.requests ∧ db2.settings = db.settings := by
  unfold add_submission at h
  split at h
  · exact absurd h (by simp)
  · simp only [Except.ok.injEq, Prod.mk.injEq] at h
    obtain ⟨-, h2⟩ := h
    rw [← h2]
    exact ⟨rfl, rfl⟩

theorem find?_bump_token (token : String) (rs : List Request) :
    (rs.map (fun r =>
        if r.token == token then { r with used_count := r.used_count + 1 } else r)).find?
        (fun r => r.token == token)
      = (rs.find? (fun r => r.token == token)).map
          (fun r => { r with used_count := r.used_count + 1 }) := by
  induction rs with
  | nil => rfl
  | cons a l ih =>
    simp only [List.map_cons, List.find?_cons]
    cases hc : a.token == token
    · rw [if_neg (by simp [hc])]
      simp only [hc]
      exact ih
    · simp [hc]

theorem gateEval_some {token : String} {db : DB} {req : Request}
    (hreq : get_request_by_token token db = some req) :
    gateEval token db =
      (if (req.status != "open") = true then Except.error SubmitResult.closed
       else if is_token_used token db = true then Except.error SubmitResult.exhausted
       else Except.ok req.id) := by
  unfold gateEval
  rw [hreq]

theorem submit_accepted_inv {token name phone email : String} {db db1 : DB}
    (h : submitViaToken token name phone email db = (.accepted, db1)) :
    ∃ req sub db2, get_request_by_token token db = some req ∧
      req.status = "open" ∧ is_token_used token db = false ∧
      add_submission req.id (pyStrip name) (pyStrip phone) (pyStrip email) db = .ok (sub, db2) ∧
      db1 = mark_token_used token db2 := by
  unfold submitViaToken at h
  cases hreq : get_request_by_token token db with
  | none =>
    have hg : gateEval token db = .error .unknownToken := by
      unfold gateEval
      rw [hreq]
    rw [hg] at h
    have h2 : ((SubmitResult.unknownToken, db) : SubmitResult × DB) = (.accepted, db1) := h
    simp at h2
  | some req =>
    have hg := gateEval_some hreq
    by_cases hst : (req.status != "open") = true
    · rw [if_pos hst] at hg
      rw [hg] at h
      have h2 : ((SubmitResult.closed, db) : SubmitResult × DB) = (.accepted, db1) := h
      simp at h2
    · rw [if_neg hst] at hg
      by_cases hused : is_token_used token db = true
      · rw [if_pos hused] at hg
        rw [hg] at h
        have h2 : ((SubmitResult.exhausted, db) : SubmitResult × DB) = (.accepted, db1) := h
        simp at h2
      · rw [if_neg hused] at hg
        rw [hg] at h
        have h2 : actEval req.id token name phone email db = (.accepted, db1) := h
        unfold actEval at h2
        by_cases hval : hasValidationErrors name phone email = true
        · rw [if_pos hval] at h2
          simp at h2
        · rw [if_neg hval] at h2
          cases hadd : add_submission req.id (pyStrip name) (pyStrip phone) (pyStrip email) db with
          | error e =>
            rw [hadd] at h2
            simp at h2
          | ok pr =>
            obtain ⟨sub, db2⟩ := pr
            rw [hadd] at h2
            have h3 : ((SubmitResult.accepted, mark_token_used token db2) : SubmitResult × DB)
                = (.accepted, db1) := h2
            simp only [Prod.mk.injEq] at h3
            refine ⟨req, sub, db2, rfl, ?_, by simpa using hused, hadd, h3.2.symm⟩
            simpa using hst

/-- C1: a token is usable (the public form is reached) exactly when the
request exists, its status is open, and either it is not one-time-use or its
used count is zero; and for a one-time-use request, after a first accepted
submission through the token, any second submission attempt with the same
token fails with EXHAUSTED. -/
theorem token_usable_iff_and_one_time_once :
    (∀ (token : String) (db : DB),
      tokenUsable token db = true ↔
        ∃ req, get_request_by_token token db = some req ∧ req.status = "open" ∧
          (req.one_time_use ≠ 1 ∨ req.used_count = 0)) ∧
    (∀ (token : String) (db : DB) (req : Request) (name phone email : String) (db1 : DB)
        (name2 phone2 email2 : String),
      get_request_by_token token db = some req → req.one_time_use = 1 →
      submitViaToken token name phone email db = (.accepted, db1) →
      submitViaToken token name2 phone2 email2 db1 = (.exhausted, db1)) := by
  constructor
  · intro token db
    unfold tokenUsable
    cases hreq : get_request_by_token token db with
    | none =>
      have hg : gateEval token db = .error .unknownToken := by
        unfold gateEval
        rw [hreq]
      rw [hg]
      simp
    | some req =>
      have hg := gateEval_some hreq
      by_cases hst : (req.status != "open") = true
      · rw [if_pos hst] at hg
        rw [hg]
        have hne : req.status ≠ "open" := by simpa using hst
        simp [hne]
      · rw [if_neg hst] at hg
        have hopen : req.status = "open" := by simpa using hst
        by_cases hused : is_token_used token db = true
        · rw [if_pos hused] at hg
          rw [hg]
          unfold is_token_used at hused
          rw [hreq] at hused
          simp only [Bool.and_eq_true, beq_iff_eq, decide_eq_true_eq] at hused
          constructor
          · intro hLT
            simp at hLT
          · rintro ⟨r2, hr2, -, hor⟩
            obtain rfl : req = r2 := Option.some.inj hr2
            rcases hor with h1 | h2
            · exact absurd hused.1 h1
            · omega
        · rw [if_neg hused] at hg
          rw [hg]
          unfold is_token_used at hused
          rw [hreq] at hused
          simp only [Bool.and_eq_true, beq_iff_eq, decide_eq_true_eq, not_and, not_lt,
            Nat.le_zero] at hused
          constructor
          · intro h0
            refine ⟨req, rfl, hopen, ?_⟩
            by_cases h1 : req.one_time_use = 1
            · exact Or.inr (hused h1)
            · exact Or.inl h1
          · intro h0
            rfl
  · intro token db req name phone email db1 name2 phone2 email2 hreq hone hacc
    obtain ⟨req2, sub, db2, hreq2, hopen, hused, hadd, hdb1⟩ := submit_accepted_inv hacc
    rw [hreq] at hreq2
    obtain rfl : req = req2 := Option.some.inj hreq2
    have hreqs := (add_submission_ok_state hadd).1
    have hfind : get_request_by_token token db1
        = some { req with used_count := req.used_count + 1 } := by
      have hmk : (mark_token_used token db2).requests
          = db2.requests.map (fun r =>
              if r.token == token then { r with used_count := r.used_count + 1 } else r) := rfl
      have hfind0 : db.requests.find? (fun r => r.token == token) = some req := hreq
      unfold get_request_by_token
      rw [hdb1, hmk, hreqs, find?_bump_token, hfind0]
      rfl
    have hg1 := gateEval_some hfind
    rw [if_neg (by simp [hopen]), if_pos (by
      unfold is_token_used
      rw [hfind]
      simp [hone])] at hg1
    unfold submitViaToken
    rw [hg1]

/-- The one-time-use example store: request 1 with token abc123, fresh. -/
def c1Db : DB :=
  { settings := [],
    requests := [{ id := 1, title := "Event A", description := "", status := "open",
                   token := "abc123", one_time_use := 1, used_count := 0 }],
    submissions := [], nextSubId := 1 }

/-- The same store after one accepted submission through abc123. -/
def c1Db1 : DB :=
  { settings := [],
    requests := [{ id := 1, title := "Event A", description := "", status := "open",
                   token := "abc123", one_time_use := 1, used_count := 1 }],
    submissions := [{ id := 1, request_id := 1, name := "Jane Doe",
                      phone := "+1 555-000-1111", email := "" }],
    nextSubId := 2 }

theorem token_usable_iff_and_one_time_once_witness :
    tokenUsable "abc123" c1Db = true ∧
    submitViaToken "abc123" "Bob Roy" "555-000-2222" "" c1Db1 = (.exhausted, c1Db1) :=
  ⟨(token_usable_iff_and_one_time_once.1 "abc123" c1Db).mpr
      ⟨{ id := 1, title := "Event A", description := "", status := "open",
         token := "abc123", one_time_use := 1, used_count := 0 }, by decide, rfl, Or.inr rfl⟩,
   token_usable_iff_and_one_time_once.2 "abc123" c1Db
     { id := 1, title := "Event A", description := "", status := "open",
       token := "abc123", one_time_use := 1, used_count := 0 }
     "Jane Doe" "+1 555-000-1111" "" c1Db1 "Bob Roy" "555-000-2222" ""
     (by decide) rfl (by decide)⟩

/-- A fresh one-time-use request for the race scenario. -/
def raceDb : DB :=
  { settings := [],
    requests := [{ id := 1, title := "Event A", description := "", status := "open",
                   token := "onetok", one_time_use := 1, used_count := 0 }],
    submissions := [], nextSubId := 1 }

def attemptA : Attempt := { name := "Alice Doe", phone := "555-000-1111", email := "" }

def attemptB : Attempt := { name := "Bobby Doe", phone := "555-000-2222", email := "" }

/-- The interleaved schedule: both gates run before either submit block. -/
def racedSchedule : List RaceStep := [.gateA, .gateB, .actA, .actB]

/-- The sequential schedule: attempt A finishes before attempt B starts. -/
def serialSchedule : List RaceStep := [.gateA, .actA, .gateB, .actB]

/-- C3: the gate check and the consume action are not one atomic unit. Under
the valid interleaving in which both gate checks run before either submit
block, both attempts against the same fresh one-time token are accepted, the
used count ends at 2 and both submissions are stored; only under the fully
sequential schedule does the second attempt fail with EXHAUSTED. -/
theorem one_time_token_race_not_atomic :
    validInterleaving racedSchedule = true ∧
    validInterleaving serialSchedule = true ∧
    (runRace "onetok" attemptA attemptB racedSchedule raceDb).aOut = some .accepted ∧
    (runRace "onetok" attemptA attemptB racedSchedule raceDb).bOut = some .accepted ∧
    (get_request_by_token "onetok" (runRace "onetok" attemptA attemptB racedSchedule raceDb).db).map
        Request.used_count = some 2 ∧
    (list_submissions 1 (runRace "onetok" attemptA attemptB racedSchedule raceDb).db).length = 2 ∧
    (runRace "onetok" attemptA attemptB serialSchedule raceDb).aOut = some .accepted ∧
    (runRace "onetok" attemptA attemptB serialSchedule raceDb).bOut = some .exhausted := by
  decide

theorem find?_map_set_ne (l : List (String × RVal)) (k k2 : String) (v : RVal)
    (h : (k == k2) = false) :
    (l.map (fun kv => if kv.1 == k then (k, v) else kv)).find? (fun kv => kv.1 == k2)
      = l.find? (fun kv => kv.1 == k2) := by
  induction l with
  | nil => rfl
  | cons a l ih =>
    simp only [List.map_cons, List.find?_cons]
    rcases Bool.eq_false_or_eq_true (a.1 == k) with hc | hc
    · rw [if_pos hc]
      have h2 : (a.1 == k2) = false := by
        have hak : a.1 = k := by simpa using hc
        simpa [hak] using h
      simp only [h, h2]
      exact ih
    · rw [if_neg (by simp [hc])]
      rcases Bool.eq_false_or_eq_true (a.1 == k2) with hc2 | hc2
      · simp only [hc2]
      · simp only [hc2]
        exact ih

theorem find?_map_set_self (l : List (String × RVal)) (k : String) (v : RVal)
    (hany : l.any (fun kv => kv.1 == k) = true) :
    (l.map (fun kv => if kv.1 == k then (k, v) else kv)).find? (fun kv => kv.1 == k)
      = some (k, v) := by
  induction l with
  | nil => simp at hany
  | cons a l ih =>
    simp only [List.map_cons, List.find?_cons]
    rcases Bool.eq_false_or_eq_true (a.1 == k) with hc | hc
    · rw [if_pos hc]
      simp only [beq_self_eq_true]
    · simp only [List.any_cons, hc, Bool.false_or] at hany
      rw [if_neg (by simp [hc])]
      simp only [hc]
      exact ih hany

theorem rowGet_rowSet_of_ne (row : AggRow) (k k2 : String) (v : RVal) (h : k ≠ k2) :
    rowGet (rowSet row k v) k2 = rowGet row k2 := by
  have hb : (k == k2) = false := by simpa using h
  unfold rowSet
  by_cases hany : row.any (fun kv => kv.1 == k) = true
  · rw [if_pos hany]
    unfold rowGet
    rw [find?_map_set_ne row k k2 v hb]
  · rw [if_neg hany]
    unfold rowGet
    rw [List.find?_append]
    have h1 : List.find? (fun kv => kv.1 == k2) [(k, v)] = none := by
      simp [List.find?_cons, hb]
    rw [h1]
    cases hf : row.find? (fun kv => kv.1 == k2) <;> simp [hf, Option.or]

theorem rowGet_rowSet_self (row : AggRow) (k : String) (v : RVal) :
    rowGet (rowSet row k v) k = some v := by
  unfold rowSet
  by_cases hany : row.any (fun kv => kv.1 == k) = true
  · rw [if_pos hany]
    unfold rowGet
    rw [find?_map_set_self row k v hany]
  · rw [if_neg hany]
    unfold rowGet
    rw [List.find?_append]
    have hnone : row.find? (fun kv => kv.1 == k) = none := by
      rw [List.find?_eq_none]
      intro kv hkv hkvk
      exact hany (List.any_eq_true.mpr ⟨kv, hkv, hkvk⟩)
    rw [hnone]
    simp [List.find?_cons]

/-- The invariant of aggregation rows: no Total Points key, and the Earned
Points and Submissions keys are present. -/
def aggRowInv (row : AggRow) : Prop :=
  rowGet row "Total Points" = none ∧
  (rowGet row "Earned Points").isSome = true ∧
  (rowGet row "Submissions").isSome = true

theorem aggRowInv_fresh (n p : String) : aggRowInv (freshAggRow n p) :=
  ⟨rfl, rfl, rfl⟩

theorem aggRowInv_update (row : AggRow) (v1 v2 : RVal)
    (h : aggRowInv row) :
    aggRowInv (rowSet (rowSet row "Earned Points" v1) "Submissions" v2) := by
  refine ⟨?_, ?_, ?_⟩
  · rw [rowGet_rowSet_of_ne _ _ _ _ (by decide), rowGet_rowSet_of_ne _ _ _ _ (by decide)]
    exact h.1
  · rw [rowGet_rowSet_of_ne _ _ _ _ (by decide), rowGet_rowSet_self]
    rfl
  · rw [rowGet_rowSet_self]
    rfl

theorem aggStep_preserves (agg : List ((String × String) × AggRow))
    (r : String × String × Int) (h : ∀ kv ∈ agg, aggRowInv kv.2) :
    ∀ kv ∈ aggStep agg r, aggRowInv kv.2 := by
  intro kv hkv
  unfold aggStep at hkv
  obtain ⟨kv0, hkv0, rfl⟩ := List.mem_map.mp hkv
  have h0 : aggRowInv kv0.2 := by
    by_cases hc : agg.any (fun kv => kv.1 == (r.1, r.2.1)) = true
    · rw [if_pos hc] at hkv0
      exact h kv0 hkv0
    · rw [if_neg hc] at hkv0
      rcases List.mem_append.mp hkv0 with hmem | hmem
      · exact h kv0 hmem
      · have : kv0 = ((r.1, r.2.1), freshAggRow r.1 r.2.1) := by simpa using hmem
        rw [this]
        exact aggRowInv_fresh r.1 r.2.1
  by_cases hk : (kv0.1 == (r.1, r.2.1)) = true
  · rw [if_pos hk]
    exact aggRowInv_update _ _ _ h0
  · rw [if_neg hk]
    exact h0

theorem aggFold_inv (rows : List (String × String × Int)) :
    ∀ kv ∈ aggFold rows, aggRowInv kv.2 := by
  unfold aggFold
  suffices hgen : ∀ (rs : List (String × String × Int)) (agg : List ((String × String) × AggRow)),
      (∀ kv ∈ agg, aggRowInv kv.2) → ∀ kv ∈ rs.foldl aggStep agg, aggRowInv kv.2 by
    exact hgen rows [] (by simp)
  intro rs
  induction rs with
  | nil =>
    intro agg h
    simpa using h
  | cons r rs ih =>
    intro agg h
    rw [List.foldl_cons]
    exact ih _ (aggStep_preserves agg r h)

/-- C10: on every row the review aggregation produces, the Total Points key
that the sort key function reads is absent while Earned Points, Adjustments,
Balance and Submissions are present; hence whenever the aggregation is
nonempty, the sort fails on its key lookup instead of returning a sorted
table. -/
theorem review_sort_key_missing (rows : List (String × String × Int))
    (ledger : List RewardEntry) :
    (∀ row ∈ aggRowsWithBalances rows ledger,
      rowGet row "Total Points" = none ∧
      (rowGet row "Earned Points").isSome = true ∧
      (rowGet row "Adjustments").isSome = true ∧
      (rowGet row "Balance").isSome = true ∧
      (rowGet row "Submissions").isSome = true) ∧
    (aggRowsWithBalances rows ledger ≠ [] →
      sortAggRows (aggRowsWithBalances rows ledger) = none) := by
  have hrows : ∀ row ∈ aggRowsWithBalances rows ledger,
      rowGet row "Total Points" = none ∧
      (rowGet row "Earned Points").isSome = true ∧
      (rowGet row "Adjustments").isSome = true ∧
      (rowGet row "Balance").isSome = true ∧
      (rowGet row "Submissions").isSome = true := by
    intro row hrow
    unfold aggRowsWithBalances at hrow
    obtain ⟨kv, hkv, rfl⟩ := List.mem_map.mp hrow
    obtain ⟨hTP, hEP, hSub⟩ := aggFold_inv rows kv hkv
    refine ⟨?_, ?_, ?_, ?_, ?_⟩
    · rw [rowGet_rowSet_of_ne _ _ _ _ (by decide), rowGet_rowSet_of_ne _ _ _ _ (by decide)]
      exact hTP
    · rw [rowGet_rowSet_of_ne _ _ _ _ (by decide), rowGet_rowSet_of_ne _ _ _ _ (by decide)]
      exact hEP
    · rw [rowGet_rowSet_of_ne _ _ _ _ (by decide), rowGet_rowSet_self]
      rfl
    · rw [rowGet_rowSet_self]
      rfl
    · rw [rowGet_rowSet_of_ne _ _ _ _ (by decide), rowGet_rowSet_of_ne _ _ _ _ (by decide)]
      exact hSub
  refine ⟨hrows, fun hne => ?_⟩
  unfold sortAggRows
  rw [if_neg]
  intro hall
  obtain ⟨row, hrow⟩ := List.exists_mem_of_ne_nil _ hne
  have h1 := List.all_eq_true.mp hall row hrow
  have h2 := (hrows row hrow).1
  unfold sortKeyLookup at h1
  rw [h2] at h1
  simp at h1

theorem review_sort_key_missing_witness :
    sortAggRows (aggRowsWithBalances [("Ann Lee", "5551234", 5)] []) = none :=
  (review_sort_key_missing [("Ann Lee", "5551234", 5)] []).2 (by decide)
